import Mathlib

/-!
Verification development for the Berlin logistics delivery pipeline
(`scripts/tools.py`, `scripts/generate_data.py`, `scripts/train.py`).

The Python source is shallowly embedded: raw user strings are `List Char`,
Python floats that only flow through arithmetic decided by comparisons are
modelled as `ℚ` where the code is exact arithmetic on small numbers and as
`ℝ` where the code uses transcendental functions (`math.sin`, `math.atan2`),
`int(...)` truncation and `round(x, 2)` are explicit functions, and the
`try/except` boundaries become total functions returning an error variant.
-/

namespace BerlinLogistics

/-! ## Python string primitives used by `_normalize_input` -/

/-- Python `str.lower()` restricted to the ASCII inputs the tools receive. -/
def pyLower (s : List Char) : List Char := s.map Char.toLower

/-- Python `str.strip()`: drop leading and trailing whitespace. -/
def pyStrip (s : List Char) : List Char :=
  ((s.dropWhile Char.isWhitespace).reverse.dropWhile Char.isWhitespace).reverse

/-- Leading-segment test: `startsWith p s` iff `p` is an initial segment of `s`. -/
def startsWith : List Char → List Char → Bool
  | [], _ => true
  | _ :: _, [] => false
  | a :: xs, b :: ys => a == b && startsWith xs ys

/-- Python `sub in s` on strings: contiguous-substring containment. -/
def pyIn (sub : List Char) : List Char → Bool
  | [] => sub.isEmpty
  | b :: t => startsWith sub (b :: t) || pyIn sub t

/-! ## `tools._normalize_input` (tools.py lines 35-41) -/

/-- The containment test of one loop iteration of `_normalize_input`:
`val_clean in opt.lower() or opt.lower() in val_clean`. -/
def optionMatches (valClean opt : List Char) : Bool :=
  pyIn valClean (pyLower opt) || pyIn (pyLower opt) valClean

/-- `_normalize_input(val, options, default)`: return the first option whose
lowercase form contains or is contained in the cleaned input, else the default. -/
def normalizeInput (val : List Char) (options : List (List Char))
    (default : List Char) : List Char :=
  let valClean := pyLower (pyStrip val)
  match options.find? (fun opt => optionMatches valClean opt) with
  | some opt => opt
  | none => default

/-! ## Categorical code maps (tools.py lines 52-54, identical in both tools) -/

def weatherOptions : List (List Char) :=
  ["Sunny".toList, "Cloudy".toList, "Rainy".toList, "Snow".toList]

def trafficOptions : List (List Char) :=
  ["Low".toList, "Medium".toList, "High".toList]

def expOptions : List (List Char) :=
  ["Junior".toList, "Senior".toList, "Expert".toList]

/-- `weather_map.get(weather, 1)` with `{"Sunny":0,"Cloudy":1,"Rainy":2,"Snow":3}`. -/
def weatherMapGet (w : List Char) : ℕ :=
  if w = "Sunny".toList then 0
  else if w = "Cloudy".toList then 1
  else if w = "Rainy".toList then 2
  else if w = "Snow".toList then 3
  else 1

/-- `traffic_map.get(traffic_level, 1)` with `{"Low":0,"Medium":1,"High":2}`. -/
def trafficMapGet (t : List Char) : ℕ :=
  if t = "Low".toList then 0
  else if t = "Medium".toList then 1
  else if t = "High".toList then 2
  else 1

/-- `exp_map.get(driver_experience, 1)` with `{"Junior":0,"Senior":1,"Expert":2}`. -/
def expMapGet (e : List Char) : ℕ :=
  if e = "Junior".toList then 0
  else if e = "Senior".toList then 1
  else if e = "Expert".toList then 2
  else 1

/-! ## Encoded feature vector (the single-row DataFrame of both tools) -/

/-- The fixed-order numeric feature row fed to the model; field names follow
the DataFrame column names in `tools.py`. -/
structure EncodedFeatureVector where
  distance_km : ℚ
  weather_code : ℕ
  traffic_code : ℕ
  exp_code : ℕ
  vehicle_type_Scooter : ℕ
  vehicle_type_Van : ℕ
  deriving DecidableEq, Repr

/-- Feature-encoding block of `predict_delivery_time` (tools.py lines 52-68):
normalize the three fuzzy fields, then build the row, with the vehicle
indicators computed by raw case-sensitive substring tests. -/
def predictEncode (vehicle_type weather : List Char) (distance_km : ℚ)
    (traffic_level driver_experience : List Char) : EncodedFeatureVector :=
  let weather' := normalizeInput weather weatherOptions "Cloudy".toList
  let traffic' := normalizeInput traffic_level trafficOptions "Medium".toList
  let exp' := normalizeInput driver_experience expOptions "Senior".toList
  { distance_km := distance_km
    weather_code := weatherMapGet weather'
    traffic_code := trafficMapGet traffic'
    exp_code := expMapGet exp'
    vehicle_type_Scooter := if pyIn "Scooter".toList vehicle_type then 1 else 0
    vehicle_type_Van := if pyIn "Van".toList vehicle_type then 1 else 0 }

/-- Feature-encoding block of `explain_delivery_prediction`
(tools.py lines 137-149); transcribed separately from its own lines so that
agreement with the prediction path is a theorem, not a definition. -/
def explainEncode (vehicle_type weather : List Char) (distance_km : ℚ)
    (traffic_level driver_experience : List Char) : EncodedFeatureVector :=
  let weather' := normalizeInput weather weatherOptions "Cloudy".toList
  let traffic' := normalizeInput traffic_level trafficOptions "Medium".toList
  let exp' := normalizeInput driver_experience expOptions "Senior".toList
  { distance_km := distance_km
    weather_code := weatherMapGet weather'
    traffic_code := trafficMapGet traffic'
    exp_code := expMapGet exp'
    vehicle_type_Scooter := if pyIn "Scooter".toList vehicle_type then 1 else 0
    vehicle_type_Van := if pyIn "Van".toList vehicle_type then 1 else 0 }

/-! ## `tools.check_data_drift` (tools.py lines 178-201) -/

/-- Outcome of loading `../models/training_stats.json` inside the `try` block:
the file may be absent (raises `FileNotFoundError`), unparsable or missing a
key (raises inside `json.load` or the indexing), or yield the two numbers. -/
inductive StatsLoad where
  | missing : StatsLoad
  | malformed : StatsLoad
  | valid : ℚ → ℚ → StatsLoad
  deriving DecidableEq, Repr

/-- Result of `check_data_drift`: either the `except` branch's
`"Error checking drift: ..."` string, or a report carrying baseline mean,
batch mean, z-score and the drift verdict of the final `if`. -/
inductive DriftOutcome where
  | errorReport : DriftOutcome
  | report : ℚ → ℚ → ℚ → Bool → DriftOutcome
  deriving DecidableEq, Repr

/-- `sum(daily_delivery_times) / len(daily_delivery_times)`. -/
def batchMean (batch : List ℤ) : ℚ :=
  (batch.map (fun x => (x : ℚ))).sum / batch.length

/-- `check_data_drift(daily_delivery_times)`: any exception raised inside the
`try` block (missing/malformed stats file, `ZeroDivisionError` from an empty
batch or a zero baseline std) is caught and reported as an error string;
otherwise the z-score test runs and `abs(z_score) > 2` decides drift. -/
def check_data_drift (stats : StatsLoad) (daily_delivery_times : List ℤ) :
    DriftOutcome :=
  match stats with
  | .missing => .errorReport
  | .malformed => .errorReport
  | .valid base_mean base_std =>
    if daily_delivery_times.isEmpty then .errorReport
    else if base_std = 0 then .errorReport
    else
      let new_mean := batchMean daily_delivery_times
      let z_score := (new_mean - base_mean) / base_std
      .report base_mean new_mean z_score (decide (2 < |z_score|))

/-! ## Geodesic distance and the synthetic generator

`tools.calculate_delivery_distance` (tools.py lines 94-110) and
`generate_data.haversine` (generate_data.py lines 28-40) contain the same
haversine formula with Earth radius 6371 km; the tool additionally rounds the
result to two decimals. The generator's duration model is transcribed from
generate_data.py lines 85-126. These use `math.sin`/`math.cos`/`math.atan2`,
so this part of the embedding lives in `ℝ`. -/

noncomputable section

/-- `math.radians`: degrees to radians. -/
def radians (x : ℝ) : ℝ := x * (Real.pi / 180)

/-- `math.atan2(y, x)`: two-argument arctangent with the standard quadrant
corrections. -/
def atan2 (y x : ℝ) : ℝ :=
  if 0 < x then Real.arctan (y / x)
  else if x < 0 then
    (if 0 ≤ y then Real.arctan (y / x) + Real.pi
     else Real.arctan (y / x) - Real.pi)
  else
    (if 0 < y then Real.pi / 2
     else if y < 0 then -(Real.pi / 2)
     else 0)

/-- Python `round(x)`: nearest integer, ties to the even neighbour. At a tie
`x = k + 1/2`, doubling after halving picks the even side. -/
def pyRoundInt (x : ℝ) : ℤ :=
  if Int.fract x = 1 / 2 then 2 * round (x / 2) else round x

/-- Python `round(x, 2)`: round to two decimal places. -/
def pyRound2 (x : ℝ) : ℝ := (pyRoundInt (100 * x) : ℝ) / 100

/-- Python `int(x)`: truncation toward zero. -/
def pyInt (x : ℝ) : ℤ := if 0 ≤ x then ⌊x⌋ else ⌈x⌉

/-- The local variable `a` of both copies of the haversine formula:
`sin(dphi/2)**2 + cos(phi1)*cos(phi2)*sin(dlambda/2)**2`. -/
def haversineA (lat1 lon1 lat2 lon2 : ℝ) : ℝ :=
  Real.sin (radians (lat2 - lat1) / 2) ^ 2 +
    Real.cos (radians lat1) * Real.cos (radians lat2) *
      Real.sin (radians (lon2 - lon1) / 2) ^ 2

/-- The local variable `c`: `2 * atan2(sqrt(a), sqrt(1 - a))`. -/
def haversineC (lat1 lon1 lat2 lon2 : ℝ) : ℝ :=
  2 * atan2 (Real.sqrt (haversineA lat1 lon1 lat2 lon2))
    (Real.sqrt (1 - haversineA lat1 lon1 lat2 lon2))

/-- `generate_data.haversine`: great-circle distance `R * c` in km. -/
def haversine (lat1 lon1 lat2 lon2 : ℝ) : ℝ :=
  6371 * haversineC lat1 lon1 lat2 lon2

/-- `tools.calculate_delivery_distance`: the identical formula (`R = 6371`,
same `a` and `c`), with the result rounded via `round(R * c, 2)`. -/
def calculate_delivery_distance (lat1 lon1 lat2 lon2 : ℝ) : ℝ :=
  pyRound2 (6371 * haversineC lat1 lon1 lat2 lon2)

/-- The vehicle categories of the generator (`VEHICLES`). -/
inductive Vehicle where
  | Bike | Scooter | Van
  deriving DecidableEq, Repr

/-- The weather categories of the generator (`WEATHER`). -/
inductive WeatherKind where
  | Sunny | Cloudy | Rainy | Snow
  deriving DecidableEq, Repr

/-- The traffic categories of the generator (`TRAFFIC`). -/
inductive TrafficKind where
  | Low | Medium | High
  deriving DecidableEq, Repr

/-- The driver-experience categories of the generator (`DRIVER_EXP`). -/
inductive ExpKind where
  | Junior | Senior | Expert
  deriving DecidableEq, Repr

/-- Vehicle base speed in km/h (generate_data.py lines 88-91). -/
def speed : Vehicle → ℝ
  | .Bike => 15
  | .Scooter => 25
  | .Van => 30

/-- The sequential multiplier chain of generate_data.py lines 96-107. -/
def tripMultipliers (weather : WeatherKind) (traffic : TrafficKind)
    (driver_exp : ExpKind) : ℝ :=
  let m : ℝ := 1.0
  let m := if weather = .Rainy then m * 1.2 else m
  let m := if weather = .Snow then m * 1.5 else m
  let m := if traffic = .Medium then m * 1.2 else m
  let m := if traffic = .High then m * 1.5 else m
  let m := if driver_exp = .Junior then m * 1.1 else m
  let m := if driver_exp = .Expert then m * 0.9 else m
  m

/-- The two fields of a generated row that the generator invariant concerns. -/
structure TripRecord where
  distance_km : ℝ
  delivery_duration_mins : ℤ

/-- One loop iteration of the generator (generate_data.py lines 47-126) as a
function of the sampled values: the two district centers, the four uniform
jitter draws, the categorical draws and the additive noise draw. -/
def makeTripRecord (centerStartLat centerStartLon centerEndLat centerEndLon : ℝ)
    (j1 j2 j3 j4 : ℝ) (vehicle : Vehicle) (weather : WeatherKind)
    (traffic : TrafficKind) (driver_exp : ExpKind) (noise : ℝ) : TripRecord :=
  let start_lat := centerStartLat + j1
  let start_lon := centerStartLon + j2
  let end_lat := centerEndLat + j3
  let end_lon := centerEndLon + j4
  let distance_km := haversine start_lat start_lon end_lat end_lon
  let base_duration := (distance_km / speed vehicle) * 60
  let final_duration :=
    base_duration * tripMultipliers weather traffic driver_exp + noise
  { distance_km := pyRound2 distance_km
    delivery_duration_mins := pyInt (max 5 final_duration) }

end

/-! ## Attribution explainer (`explain_delivery_prediction`, tools.py 150-168)

The code delegates the attribution itself to `shap.TreeExplainer(MODEL)`:
both the fitted model artifact (`../models/delivery_model.pkl`) and the SHAP
algorithm live outside `scripts/`, so the attribution method is modelled from
the spec. The spec defines it as "Shapley-value-style feature attribution"
whose defining correctness property is the additivity invariant. -/

/-- Modelled from the spec: the estimator together with the explainer's
conditioning is abstracted as a cooperative value function per encoded row,
assigning to each coalition of the six feature columns the model's expected
output with exactly those features fixed to the row's values. `v ∅` is the
report's base value and `v Finset.univ` the estimator's point prediction. -/
def baseValue (v : Finset (Fin 6) → ℚ) : ℚ := v ∅

/-- Modelled from the spec: the point prediction is the value of the full
feature coalition (all six features fixed to the encoded row). -/
def pointPrediction (v : Finset (Fin 6) → ℚ) : ℚ := v Finset.univ

/-- The features strictly before `i` in the ordering `l`. -/
def predecessors (l : List (Fin 6)) (i : Fin 6) : Finset (Fin 6) :=
  (l.takeWhile (fun j => j != i)).toFinset

/-- Marginal contribution of feature `i` joining its predecessors in `l`. -/
def marginalContribution (v : Finset (Fin 6) → ℚ) (l : List (Fin 6))
    (i : Fin 6) : ℚ :=
  v (insert i (predecessors l i)) - v (predecessors l i)

/-- Modelled from the spec: the Shapley value of feature `i` — its marginal
contribution averaged over all 720 orderings of the six features. This is the
per-feature signed contribution of the attribution report. -/
def shapleyValue (v : Finset (Fin 6) → ℚ) (i : Fin 6) : ℚ :=
  ((List.finRange 6).permutations.map
    (fun l => marginalContribution v l i)).sum / 720


/-! ## Helper lemmas -/

/-- The `all`-form no-match test for a raw value against an option list:
no loop iteration of `_normalize_input` would fire. -/
def noOptionMatches (val : List Char) (options : List (List Char)) : Bool :=
  options.all (fun opt => !(optionMatches (pyLower (pyStrip val)) opt))

lemma normalizeInput_eq_default (val : List Char) (options : List (List Char))
    (default : List Char) (h : noOptionMatches val options = true) :
    normalizeInput val options default = default := by
  have hfind : options.find?
      (fun opt => optionMatches (pyLower (pyStrip val)) opt) = none := by
    rw [List.find?_eq_none]
    intro opt hopt
    have hall := (List.all_eq_true.mp h) opt hopt
    simp only [Bool.not_eq_true'] at hall
    simp [hall]
  simp [normalizeInput, hfind]

lemma encode_paths_agree (vehicle_type weather : List Char) (distance_km : ℚ)
    (traffic_level driver_experience : List Char) :
    predictEncode vehicle_type weather distance_km traffic_level driver_experience =
      explainEncode vehicle_type weather distance_km traffic_level driver_experience := rfl

lemma predecessors_cons_self (a : Fin 6) (t : List (Fin 6)) :
    predecessors (a :: t) a = ∅ := by
  simp [predecessors, List.takeWhile_cons]

lemma predecessors_cons_ne (a : Fin 6) (t : List (Fin 6)) (i : Fin 6)
    (h : i ≠ a) :
    predecessors (a :: t) i = insert a (predecessors t i) := by
  have hne : (a != i) = true := by simp [bne_iff_ne]; exact h.symm
  simp [predecessors, List.takeWhile_cons, hne]

/-- Along a duplicate-free ordering, the marginal contributions telescope to
the value of the whole set minus the value of the empty coalition. -/
lemma sum_marginal_nodup :
    ∀ (l : List (Fin 6)) (v : Finset (Fin 6) → ℚ), l.Nodup →
      (l.map (marginalContribution v l)).sum = v l.toFinset - v ∅ := by
  intro l
  induction l with
  | nil => intro v _; simp
  | cons a t ih =>
    intro v h
    obtain ⟨ha, ht⟩ := List.nodup_cons.mp h
    rw [List.map_cons, List.sum_cons]
    have hself : marginalContribution v (a :: t) a = v {a} - v ∅ := by
      rw [marginalContribution, predecessors_cons_self]
      simp
    have hmap : t.map (marginalContribution v (a :: t)) =
        t.map (marginalContribution (fun S => v (insert a S)) t) := by
      apply List.map_congr_left
      intro i hi
      have hia : i ≠ a := fun hih => ha (hih ▸ hi)
      rw [marginalContribution, marginalContribution,
        predecessors_cons_ne a t i hia, Finset.Insert.comm]
    rw [hself, hmap, ih (fun S => v (insert a S)) ht]
    have hins : insert a (∅ : Finset (Fin 6)) = {a} := rfl
    simp only [List.toFinset_cons, hins]
    ring

/-- For a permutation of all six features the telescoped sum over the whole
feature set is the prediction minus the base value. -/
lemma sum_marginal_perm (v : Finset (Fin 6) → ℚ) (l : List (Fin 6))
    (hl : l ∈ (List.finRange 6).permutations) :
    ∑ i : Fin 6, marginalContribution v l i = v Finset.univ - v ∅ := by
  have hp : l.Perm (List.finRange 6) := List.mem_permutations.mp hl
  have hnd : l.Nodup := hp.nodup_iff.mpr (List.nodup_finRange 6)
  have htf : l.toFinset = Finset.univ := by
    ext x
    simp [List.mem_toFinset, hp.mem_iff]
  calc ∑ i : Fin 6, marginalContribution v l i
      = ∑ i ∈ l.toFinset, marginalContribution v l i := by rw [htf]
    _ = (l.map (marginalContribution v l)).sum := List.sum_toFinset _ hnd
    _ = v l.toFinset - v ∅ := sum_marginal_nodup l v hnd
    _ = v Finset.univ - v ∅ := by rw [htf]

lemma finsetSum_listSum_comm (L : List (List (Fin 6)))
    (f : Fin 6 → List (Fin 6) → ℚ) :
    ∑ i : Fin 6, (L.map (f i)).sum = (L.map (fun l => ∑ i : Fin 6, f i l)).sum := by
  induction L with
  | nil => simp
  | cons a t ih => simp [List.map_cons, List.sum_cons, Finset.sum_add_distrib, ih]

lemma list_sum_map_const (L : List (List (Fin 6))) (c : ℚ) :
    (L.map (fun _ => c)).sum = L.length • c := by
  induction L with
  | nil => simp
  | cons a t ih =>
    simp only [List.map_cons, List.sum_cons, ih, List.length_cons, succ_nsmul,
      nsmul_eq_mul]
    ring

/-- Efficiency of the Shapley attribution: the base value plus the sum of all
six per-feature contributions is exactly the full-coalition value. -/
lemma shapley_efficiency (v : Finset (Fin 6) → ℚ) :
    v ∅ + ∑ i : Fin 6, shapleyValue v i = v Finset.univ := by
  have hsum : ∑ i : Fin 6, shapleyValue v i = v Finset.univ - v ∅ := by
    unfold shapleyValue
    rw [← Finset.sum_div, finsetSum_listSum_comm]
    have hconst : (List.finRange 6).permutations.map
        (fun l => ∑ i : Fin 6, marginalContribution v l i) =
        (List.finRange 6).permutations.map (fun _ => v Finset.univ - v ∅) :=
      List.map_congr_left (fun l hl => sum_marginal_perm v l hl)
    rw [hconst, list_sum_map_const, List.length_permutations,
      List.length_finRange]
    show (Nat.factorial 6 : ℕ) • (v Finset.univ - v ∅) / 720 = _
    norm_num [Nat.factorial]
  rw [hsum]
  ring

end BerlinLogistics

namespace BerlinLogistics

/-! ## Claim theorems: encoding and drift -/

/-- C9: the prediction path and the explanation path normalize and encode an
identical raw input triple (plus vehicle and distance) to the identical
numeric feature row, so both operations feed the model the same vector. -/
theorem claim_encode_paths_equal :
    ∀ (vehicle_type weather : List Char) (distance_km : ℚ)
      (traffic_level driver_experience : List Char),
      predictEncode vehicle_type weather distance_km traffic_level driver_experience =
        explainEncode vehicle_type weather distance_km traffic_level driver_experience :=
  fun vt w d tl de => encode_paths_agree vt w d tl de

/-- C2 counterexample: the raw vehicle string "Scooter Van" contains both the
substring "Scooter" and the substring "Van", so the encoded row built by the
prediction path (and the identical explanation path) sets both indicators
to 1 — refuting the claim that both are never 1 simultaneously. -/
theorem claim_vehicle_exclusive_counterexample :
    (predictEncode "Scooter Van".toList "Sunny".toList 1 "Low".toList
        "Junior".toList).vehicle_type_Scooter = 1 ∧
    (predictEncode "Scooter Van".toList "Sunny".toList 1 "Low".toList
        "Junior".toList).vehicle_type_Van = 1 ∧
    (explainEncode "Scooter Van".toList "Sunny".toList 1 "Low".toList
        "Junior".toList).vehicle_type_Scooter = 1 ∧
    (explainEncode "Scooter Van".toList "Sunny".toList 1 "Low".toList
        "Junior".toList).vehicle_type_Van = 1 := by
  decide

/-- C2 amended: for every raw vehicle_type string that does not contain both
the exact substring "Scooter" and the exact substring "Van" (all canonical
vehicle names in particular), the encoded vector never has both indicators 1,
in either code path. -/
theorem claim_vehicle_exclusive_amended (vehicle_type weather : List Char)
    (distance_km : ℚ) (traffic_level driver_experience : List Char)
    (h : ¬(pyIn "Scooter".toList vehicle_type = true ∧
           pyIn "Van".toList vehicle_type = true)) :
    ¬((predictEncode vehicle_type weather distance_km traffic_level
          driver_experience).vehicle_type_Scooter = 1 ∧
      (predictEncode vehicle_type weather distance_km traffic_level
          driver_experience).vehicle_type_Van = 1) ∧
    ¬((explainEncode vehicle_type weather distance_km traffic_level
          driver_experience).vehicle_type_Scooter = 1 ∧
      (explainEncode vehicle_type weather distance_km traffic_level
          driver_experience).vehicle_type_Van = 1) := by
  cases hS : pyIn "Scooter".toList vehicle_type <;>
    cases hV : pyIn "Van".toList vehicle_type <;>
    simp_all [predictEncode, explainEncode]

/-- C2 amended witness: the canonical input "Van" sets the van indicator only. -/
theorem claim_vehicle_exclusive_amended_witness :
    ¬((predictEncode "Van".toList "Sunny".toList 1 "Low".toList
          "Junior".toList).vehicle_type_Scooter = 1 ∧
      (predictEncode "Van".toList "Sunny".toList 1 "Low".toList
          "Junior".toList).vehicle_type_Van = 1) ∧
    ¬((explainEncode "Van".toList "Sunny".toList 1 "Low".toList
          "Junior".toList).vehicle_type_Scooter = 1 ∧
      (explainEncode "Van".toList "Sunny".toList 1 "Low".toList
          "Junior".toList).vehicle_type_Van = 1) :=
  claim_vehicle_exclusive_amended "Van".toList "Sunny".toList 1 "Low".toList
    "Junior".toList (by decide)

/-- C3 counterexample: the weather input "raining" neither contains "rainy"
nor is contained in it, so `_normalize_input` falls through every option and
returns the default "Cloudy", encoded as weather code 1, not 2. -/
theorem claim_rainy_synonyms_counterexample :
    normalizeInput "raining".toList weatherOptions "Cloudy".toList =
      "Cloudy".toList ∧
    (predictEncode "Bike".toList "raining".toList 1 "Low".toList
        "Junior".toList).weather_code = 1 ∧
    (explainEncode "Bike".toList "raining".toList 1 "Low".toList
        "Junior".toList).weather_code = 1 := by
  decide

/-- C3 amended: "rain" and "RAIN" normalize to "Rainy" and receive weather
code 2 — the same code as the exact input "Rainy" — in both paths, but
"raining" matches no option under the substring containment test and falls
back to "Cloudy", weather code 1, in both paths. -/
theorem claim_rainy_synonyms_amended :
    ∀ (vehicle_type : List Char) (distance_km : ℚ)
      (traffic_level driver_experience : List Char),
      (predictEncode vehicle_type "rain".toList distance_km traffic_level
          driver_experience).weather_code = 2 ∧
      (predictEncode vehicle_type "RAIN".toList distance_km traffic_level
          driver_experience).weather_code = 2 ∧
      (predictEncode vehicle_type "Rainy".toList distance_km traffic_level
          driver_experience).weather_code = 2 ∧
      (explainEncode vehicle_type "rain".toList distance_km traffic_level
          driver_experience).weather_code = 2 ∧
      (explainEncode vehicle_type "RAIN".toList distance_km traffic_level
          driver_experience).weather_code = 2 ∧
      (explainEncode vehicle_type "Rainy".toList distance_km traffic_level
          driver_experience).weather_code = 2 ∧
      (predictEncode vehicle_type "raining".toList distance_km traffic_level
          driver_experience).weather_code = 1 ∧
      (explainEncode vehicle_type "raining".toList distance_km traffic_level
          driver_experience).weather_code = 1 :=
  fun _ _ _ _ => ⟨rfl, rfl, rfl, rfl, rfl, rfl, rfl, rfl⟩

/-- C5: an input matching no canonical option under the containment test
normalizes to the per-field default — weather to "Cloudy", traffic to
"Medium", experience to "Senior" — and those defaults encode to codes 1, 1, 1. -/
theorem claim_fallback_defaults (weather traffic_level driver_experience : List Char)
    (hw : noOptionMatches weather weatherOptions = true)
    (ht : noOptionMatches traffic_level trafficOptions = true)
    (he : noOptionMatches driver_experience expOptions = true) :
    ∀ (vehicle_type : List Char) (distance_km : ℚ),
      normalizeInput weather weatherOptions "Cloudy".toList = "Cloudy".toList ∧
      normalizeInput traffic_level trafficOptions "Medium".toList = "Medium".toList ∧
      normalizeInput driver_experience expOptions "Senior".toList = "Senior".toList ∧
      (predictEncode vehicle_type weather distance_km traffic_level
          driver_experience).weather_code = 1 ∧
      (predictEncode vehicle_type weather distance_km traffic_level
          driver_experience).traffic_code = 1 ∧
      (predictEncode vehicle_type weather distance_km traffic_level
          driver_experience).exp_code = 1 := by
  intro vt d
  have h1 := normalizeInput_eq_default weather weatherOptions "Cloudy".toList hw
  have h2 := normalizeInput_eq_default traffic_level trafficOptions "Medium".toList ht
  have h3 := normalizeInput_eq_default driver_experience expOptions "Senior".toList he
  refine ⟨h1, h2, h3, ?_, ?_, ?_⟩
  · show weatherMapGet (normalizeInput weather weatherOptions "Cloudy".toList) = 1
    rw [h1]; decide
  · show trafficMapGet (normalizeInput traffic_level trafficOptions "Medium".toList) = 1
    rw [h2]; decide
  · show expMapGet (normalizeInput driver_experience expOptions "Senior".toList) = 1
    rw [h3]; decide

/-- C5 witness: "Foggy" matches no weather option and encodes to the Cloudy
code, with unmatched traffic and experience inputs defaulting likewise. -/
theorem claim_fallback_defaults_witness :
    normalizeInput "Foggy".toList weatherOptions "Cloudy".toList = "Cloudy".toList ∧
    normalizeInput "gridlock".toList trafficOptions "Medium".toList = "Medium".toList ∧
    normalizeInput "novice".toList expOptions "Senior".toList = "Senior".toList ∧
    (predictEncode "Bike".toList "Foggy".toList 1 "gridlock".toList
        "novice".toList).weather_code = 1 ∧
    (predictEncode "Bike".toList "Foggy".toList 1 "gridlock".toList
        "novice".toList).traffic_code = 1 ∧
    (predictEncode "Bike".toList "Foggy".toList 1 "gridlock".toList
        "novice".toList).exp_code = 1 :=
  claim_fallback_defaults "Foggy".toList "gridlock".toList "novice".toList
    (by decide) (by decide) (by decide) "Bike".toList 1

/-- C10: vehicle encoding is raw case-sensitive substring containment with no
normalization: the scooter indicator is 1 exactly when the raw string
contains "Scooter", the van indicator 1 exactly when it contains "Van", each
indicator is 0 exactly when its substring is absent, and the lowercase
inputs "scooter" and "van" contain neither substring (Bike reference row). -/
theorem claim_vehicle_case_sensitive :
    ∀ (vehicle_type weather : List Char) (distance_km : ℚ)
      (traffic_level driver_experience : List Char),
      ((predictEncode vehicle_type weather distance_km traffic_level
          driver_experience).vehicle_type_Scooter = 1 ↔
        pyIn "Scooter".toList vehicle_type = true) ∧
      ((predictEncode vehicle_type weather distance_km traffic_level
          driver_experience).vehicle_type_Van = 1 ↔
        pyIn "Van".toList vehicle_type = true) ∧
      ((predictEncode vehicle_type weather distance_km traffic_level
          driver_experience).vehicle_type_Scooter = 0 ↔
        pyIn "Scooter".toList vehicle_type = false) ∧
      ((predictEncode vehicle_type weather distance_km traffic_level
          driver_experience).vehicle_type_Van = 0 ↔
        pyIn "Van".toList vehicle_type = false) ∧
      ((explainEncode vehicle_type weather distance_km traffic_level
          driver_experience).vehicle_type_Scooter = 1 ↔
        pyIn "Scooter".toList vehicle_type = true) ∧
      ((explainEncode vehicle_type weather distance_km traffic_level
          driver_experience).vehicle_type_Van = 1 ↔
        pyIn "Van".toList vehicle_type = true) ∧
      pyIn "Scooter".toList "scooter".toList = false ∧
      pyIn "Van".toList "van".toList = false := by
  intro vt w d tl de
  cases hS : pyIn "Scooter".toList vt <;> cases hV : pyIn "Van".toList vt <;>
    simp_all [predictEncode, explainEncode] <;> decide

/-- C4: with a well-formed baseline (nonzero std) and a non-empty batch, the
drift monitor reports baseline mean, batch mean and
z = (batch mean - baseline mean) / baseline std, recommending retraining
exactly when |z| > 2 and stability otherwise. -/
theorem claim_drift_zscore_rule (base_mean base_std : ℚ) (batch : List ℤ)
    (hb : batch ≠ []) (hs : base_std ≠ 0) :
    (2 < |(batchMean batch - base_mean) / base_std| →
      check_data_drift (.valid base_mean base_std) batch =
        .report base_mean (batchMean batch)
          ((batchMean batch - base_mean) / base_std) true) ∧
    (¬ 2 < |(batchMean batch - base_mean) / base_std| →
      check_data_drift (.valid base_mean base_std) batch =
        .report base_mean (batchMean batch)
          ((batchMean batch - base_mean) / base_std) false) := by
  have hne : batch.isEmpty = false := by
    cases batch with
    | nil => exact absurd rfl hb
    | cons a t => rfl
  constructor <;> intro h <;> simp [check_data_drift, hne, hs, h]

/-- C4 witness: baseline {mean 90, std 10} with batch mean 115 gives z = 5/2
and a drift verdict; batch mean 95 gives z = 1/2 and a stable verdict. -/
theorem claim_drift_zscore_rule_witness :
    check_data_drift (.valid 90 10) [115] = .report 90 115 (5/2) true ∧
    check_data_drift (.valid 90 10) [95] = .report 90 95 (1/2) false := by
  have h115 : batchMean [115] = 115 := by norm_num [batchMean]
  have h95 : batchMean [95] = 95 := by norm_num [batchMean]
  have z115 : ((115 : ℚ) - 90) / 10 = 5 / 2 := by norm_num
  have z95 : ((95 : ℚ) - 90) / 10 = 1 / 2 := by norm_num
  constructor
  · have h := (claim_drift_zscore_rule 90 10 [115] (by simp) (by norm_num)).1
    rw [h115, z115] at h
    exact h (by rw [abs_of_pos (by norm_num : (0 : ℚ) < 5 / 2)]; norm_num)
  · have h := (claim_drift_zscore_rule 90 10 [95] (by simp) (by norm_num)).2
    rw [h95, z95] at h
    exact h (by rw [abs_of_pos (by norm_num : (0 : ℚ) < 1 / 2)]; norm_num)

/-- C7: a missing or malformed baseline statistics file, or an empty batch
(whose mean would divide by zero), makes the drift monitor return its
descriptive error result instead of propagating the raw fault. -/
theorem claim_drift_error_handling (stats : StatsLoad) (batch : List ℤ)
    (h : stats = .missing ∨ stats = .malformed ∨ batch = []) :
    check_data_drift stats batch = .errorReport := by
  rcases h with h | h | h
  · subst h; rfl
  · subst h; rfl
  · subst h; cases stats <;> simp [check_data_drift]

/-- C1: for every raw input accepted by `explain_delivery_prediction` when
the explainer is available, the report's base value plus the sum of all six
per-feature contributions — those whose magnitude exceeds the 0.1-minute
display threshold and appear in the report text, together with the
sub-threshold ones omitted from it — equals the estimator's point prediction
for the encoded vector of that input. -/
theorem claim_explain_additivity :
    ∀ (model : EncodedFeatureVector → Finset (Fin 6) → ℚ)
      (vehicle_type weather : List Char) (distance_km : ℚ)
      (traffic_level driver_experience : List Char),
      baseValue (model (explainEncode vehicle_type weather distance_km
          traffic_level driver_experience)) +
        ((∑ i ∈ Finset.univ.filter (fun i =>
            1 / 10 < |shapleyValue (model (explainEncode vehicle_type weather
              distance_km traffic_level driver_experience)) i|),
            shapleyValue (model (explainEncode vehicle_type weather distance_km
              traffic_level driver_experience)) i) +
         (∑ i ∈ Finset.univ.filter (fun i =>
            ¬ 1 / 10 < |shapleyValue (model (explainEncode vehicle_type weather
              distance_km traffic_level driver_experience)) i|),
            shapleyValue (model (explainEncode vehicle_type weather distance_km
              traffic_level driver_experience)) i)) =
      pointPrediction (model (explainEncode vehicle_type weather distance_km
        traffic_level driver_experience)) := by
  intro model vt w d tl de
  rw [Finset.sum_filter_add_sum_filter_not]
  exact shapley_efficiency (model (explainEncode vt w d tl de))

/-- C7 witness: each failure mode at a concrete input yields the error result. -/
theorem claim_drift_error_handling_witness :
    check_data_drift .missing [80] = .errorReport ∧
    check_data_drift .malformed [80] = .errorReport ∧
    check_data_drift (.valid 90 10) [] = .errorReport :=
  ⟨claim_drift_error_handling _ _ (Or.inl rfl),
   claim_drift_error_handling _ _ (Or.inr (Or.inl rfl)),
   claim_drift_error_handling _ _ (Or.inr (Or.inr rfl))⟩

/-! ## Distance and generator lemmas -/

lemma sin_sq_radians_swap (u v : ℝ) :
    Real.sin (radians (u - v) / 2) ^ 2 = Real.sin (radians (v - u) / 2) ^ 2 := by
  have h : radians (u - v) / 2 = -(radians (v - u) / 2) := by
    unfold radians
    ring
  rw [h, Real.sin_neg, neg_sq]

lemma haversineA_symm (lat1 lon1 lat2 lon2 : ℝ) :
    haversineA lat1 lon1 lat2 lon2 = haversineA lat2 lon2 lat1 lon1 := by
  unfold haversineA
  rw [sin_sq_radians_swap lat2 lat1, sin_sq_radians_swap lon2 lon1,
    mul_comm (Real.cos (radians lat1)) (Real.cos (radians lat2))]

lemma haversineA_self (lat lon : ℝ) : haversineA lat lon lat lon = 0 := by
  unfold haversineA radians
  simp

lemma atan2_zero_one : atan2 0 1 = 0 := by
  unfold atan2
  rw [if_pos one_pos]
  simp

lemma pyRound2_zero : pyRound2 0 = 0 := by
  unfold pyRound2 pyRoundInt
  norm_num

lemma arctan_nonneg_of_nonneg (z : ℝ) (hz : 0 ≤ z) : 0 ≤ Real.arctan z := by
  have h := Real.arctan_strictMono.monotone hz
  rwa [Real.arctan_zero] at h

lemma atan2_nonneg (y x : ℝ) (hy : 0 ≤ y) : 0 ≤ atan2 y x := by
  unfold atan2
  by_cases h1 : 0 < x
  · rw [if_pos h1]
    exact arctan_nonneg_of_nonneg _ (div_nonneg hy h1.le)
  · rw [if_neg h1]
    by_cases h2 : x < 0
    · rw [if_pos h2, if_pos hy]
      have harc := Real.neg_pi_div_two_lt_arctan (y / x)
      have hpi := Real.pi_pos
      linarith
    · rw [if_neg h2]
      by_cases h4 : 0 < y
      · rw [if_pos h4]
        have hpi := Real.pi_pos
        linarith
      · rw [if_neg h4, if_neg (not_lt.mpr hy)]

lemma haversine_nonneg (lat1 lon1 lat2 lon2 : ℝ) :
    0 ≤ haversine lat1 lon1 lat2 lon2 := by
  unfold haversine haversineC
  have h := atan2_nonneg (Real.sqrt (haversineA lat1 lon1 lat2 lon2))
    (Real.sqrt (1 - haversineA lat1 lon1 lat2 lon2)) (Real.sqrt_nonneg _)
  nlinarith

lemma pyRoundInt_nonneg (x : ℝ) (hx : 0 ≤ x) : 0 ≤ pyRoundInt x := by
  unfold pyRoundInt
  split_ifs with h
  · have hr : (0 : ℤ) ≤ round (x / 2) := by
      rw [round_eq]
      exact Int.le_floor.mpr (by push_cast; linarith)
    linarith
  · rw [round_eq]
    exact Int.le_floor.mpr (by push_cast; linarith)

lemma pyRound2_nonneg (x : ℝ) (hx : 0 ≤ x) : 0 ≤ pyRound2 x := by
  unfold pyRound2
  have h := pyRoundInt_nonneg (100 * x) (by linarith)
  have : (0 : ℝ) ≤ (pyRoundInt (100 * x) : ℝ) := by exact_mod_cast h
  linarith

lemma pyInt_max_five (f : ℝ) : (5 : ℤ) ≤ pyInt (max 5 f) := by
  have h5 : (5 : ℝ) ≤ max 5 f := le_max_left _ _
  unfold pyInt
  rw [if_pos (by linarith : (0 : ℝ) ≤ max 5 f)]
  exact Int.le_floor.mpr (by exact_mod_cast h5)

/-- C6: the rounded haversine distance of `calculate_delivery_distance` is
symmetric in its two coordinate pairs and returns 0 when they coincide. -/
theorem claim_distance_symmetric_and_zero :
    (∀ lat1 lon1 lat2 lon2 : ℝ,
      calculate_delivery_distance lat1 lon1 lat2 lon2 =
        calculate_delivery_distance lat2 lon2 lat1 lon1) ∧
    (∀ lat lon : ℝ, calculate_delivery_distance lat lon lat lon = 0) := by
  constructor
  · intro lat1 lon1 lat2 lon2
    unfold calculate_delivery_distance haversineC
    rw [haversineA_symm]
  · intro lat lon
    unfold calculate_delivery_distance haversineC
    rw [haversineA_self]
    rw [Real.sqrt_zero, sub_zero, Real.sqrt_one, atan2_zero_one]
    norm_num [pyRound2_zero]

/-- C8: every record the generator can emit — whatever the sampled districts,
jitters, categories and noise — has `delivery_duration_mins ≥ 5` (the
`int(max(5, ...))` floor) and `distance_km ≥ 0` (rounded haversine). -/
theorem claim_generator_invariant :
    ∀ (centerStartLat centerStartLon centerEndLat centerEndLon
        j1 j2 j3 j4 : ℝ) (vehicle : Vehicle) (weather : WeatherKind)
      (traffic : TrafficKind) (driver_exp : ExpKind) (noise : ℝ),
      (5 : ℤ) ≤ (makeTripRecord centerStartLat centerStartLon centerEndLat
        centerEndLon j1 j2 j3 j4 vehicle weather traffic driver_exp
        noise).delivery_duration_mins ∧
      (0 : ℝ) ≤ (makeTripRecord centerStartLat centerStartLon centerEndLat
        centerEndLon j1 j2 j3 j4 vehicle weather traffic driver_exp
        noise).distance_km := by
  intro cSLat cSLon cELat cELon j1 j2 j3 j4 v w t e noise
  unfold makeTripRecord
  exact ⟨pyInt_max_five _, pyRound2_nonneg _ (haversine_nonneg _ _ _ _)⟩

end BerlinLogistics
